import Mathlib

/-!
Verification of the openmcp authentication manager and browser-session
service against their natural-language specification.

The Python source is shallowly embedded: dictionaries become association
lists over `String`, `datetime` values become `Nat` timestamps, raised
`HTTPException`s become the `Except` error channel, and external
collaborators (the selenium webdriver, the jose JWT signer) are modelled
by explicit oracle parameters recording the outcome of each external call.
-/

namespace OpenMCP

/-- Association-list lookup mirroring Python `dict` read access
(`d[k]` / `k in d`), using decidable equality on the key. -/
def dictGet {β : Type} (k : String) : List (String × β) → Option β
  | [] => none
  | (k', v) :: rest => if k' = k then some v else dictGet k rest

/-- Pointwise update of the value bound to key `a`, mirroring Python
in-place mutation of the object stored at one dict key
(`d[a].field = ...`); every binding of `a` is rewritten (a dict holds at
most one). -/
def dictUpdate {β : Type} (a : String) (g : β → β) :
    List (String × β) → List (String × β)
  | [] => []
  | (k', v) :: rest =>
    if k' = a then (k', g v) :: dictUpdate a g rest
    else (k', v) :: dictUpdate a g rest

/-- Removal of a key, mirroring Python `del d[k]`. -/
def dictRemove {β : Type} (k : String) :
    List (String × β) → List (String × β)
  | [] => []
  | (k', v) :: rest =>
    if k' = k then dictRemove k rest else (k', v) :: dictRemove k rest

/-- Association-list write mirroring Python `d[k] = v`: if the key is
present its binding is replaced, else the pair is appended. -/
def dictInsert {β : Type} (d : List (String × β)) (k : String) (v : β) :
    List (String × β) :=
  if (dictGet k d).isSome then dictUpdate k (fun _ => v) d
  else d ++ [(k, v)]

/-- `APIKey` pydantic model from `openmcp/core/auth.py`: timestamps are
`Nat` seconds, the permission dict an association list. -/
structure APIKey where
  key : String
  name : String
  created_at : Nat
  expires_at : Option Nat
  is_active : Bool
  permissions : List (String × Bool)
deriving DecidableEq, Repr

/-- The in-memory key store `AuthManager.api_keys : Dict[str, APIKey]`. -/
abbrev KeyStore := List (String × APIKey)

/-- A raised `HTTPException(status.HTTP_401_UNAUTHORIZED, detail)`. -/
inductive AuthError where
  | unauthorized (detail : String)
deriving DecidableEq, Repr

/-- `AuthConfig` (its module is not part of the auth core under study;
the fields are exactly those read by `auth.py` and `api/routes.py`). -/
structure AuthConfig where
  secret_key : String
  algorithm : String
  access_token_expire_minutes : Nat
  allow_localhost : Bool
deriving DecidableEq, Repr

/-- `AuthManager.validate_api_key`: unknown token, inactive key and
expired key each raise 401, in that order; otherwise the stored key
object is returned. `now` is `datetime.utcnow()`. -/
def validate_api_key (store : KeyStore) (now : Nat) (api_key : String) :
    Except AuthError APIKey :=
  match dictGet api_key store with
  | none => .error (.unauthorized "Invalid API key")
  | some key_obj =>
    if key_obj.is_active = false then
      .error (.unauthorized "API key is inactive")
    else
      match key_obj.expires_at with
      | some e =>
        if now > e then .error (.unauthorized "API key has expired")
        else .ok key_obj
      | none => .ok key_obj

/-- `AuthManager.check_permission`: validate, then
`key_obj.permissions.get(service, False)`. -/
def check_permission (store : KeyStore) (now : Nat)
    (api_key service : String) : Except AuthError Bool :=
  match validate_api_key store now api_key with
  | .error e => .error e
  | .ok key_obj => .ok ((dictGet service key_obj.permissions).getD false)

/-- `AuthManager.revoke_api_key`: flips `is_active` to `False` in place
when the token exists and reports whether it did. -/
def revoke_api_key (store : KeyStore) (api_key : String) :
    Bool × KeyStore :=
  if (dictGet api_key store).isSome then
    (true, dictUpdate api_key (fun k => { k with is_active := false }) store)
  else
    (false, store)

/-- `AuthManager.create_api_key`: the random token
`bmcp_<secrets.token_urlsafe(32)>` is an explicit parameter; `expires_days`
is truthiness-tested (`if expires_days:`), so `0` yields no expiry, and an
empty permission dict (falsy) also falls back to the default
`{"browseruse": True}`. Days are converted to seconds. -/
def create_api_key (store : KeyStore) (now : Nat) (token name : String)
    (expires_days : Option Nat) (permissions : Option (List (String × Bool))) :
    String × KeyStore :=
  let expires_at : Option Nat :=
    match expires_days with
    | some d => if d = 0 then none else some (now + d * 86400)
    | none => none
  let perms : List (String × Bool) :=
    match permissions with
    | some ps => if ps.isEmpty then [("browseruse", true)] else ps
    | none => [("browseruse", true)]
  let api_key : APIKey :=
    { key := token, name := name, created_at := now,
      expires_at := expires_at, is_active := true, permissions := perms }
  (token, dictInsert store token api_key)

/-- JSON-like claim values appearing in a JWT payload. -/
inductive JVal where
  | s (v : String)
  | n (v : Nat)
  | b (v : Bool)
deriving DecidableEq, Repr

/-- A JWT claim set (Python `dict`). -/
abbrev Claims := List (String × JVal)

/-- The jose JWT library is an external collaborator; a token is modelled
as its claim set together with the symmetric signing key and algorithm
(a signature check succeeds exactly when the same key is supplied), plus
a constructor for strings that do not parse as a JWT at all. -/
inductive JWToken where
  | signed (claims : Claims) (key : String) (alg : String)
  | malformed (raw : String)
deriving DecidableEq, Repr

/-- Model of `jose.jwt.encode(claims, key, algorithm=alg)`. -/
def jwtEncode (claims : Claims) (key alg : String) : JWToken :=
  .signed claims key alg

/-- Model of `jose.jwt.decode(token, key, algorithms=algs)` at time
`now`: fails on an unparsable token, a signing-key mismatch, an
algorithm outside the accepted list, a non-integer `exp` claim, or an
`exp` claim in the past (jose validates `exp` by default and raises
`ExpiredSignatureError` when `exp < now`). -/
def jwtDecode (tok : JWToken) (key : String) (algs : List String)
    (now : Nat) : Except String Claims :=
  match tok with
  | .malformed _ => .error "Error decoding token"
  | .signed claims k alg =>
    if k ≠ key then .error "Signature verification failed"
    else if alg ∉ algs then .error "The specified alg value is not allowed"
    else
      match dictGet "exp" claims with
      | some (.n e) =>
        if e < now then .error "Signature has expired" else .ok claims
      | some _ => .error "Expiration Time claim is not an integer"
      | none => .ok claims

/-- `AuthManager.create_access_token`: copies `data`, overwrites the
`exp` entry with `now + access_token_expire_minutes` (in seconds) and
signs with the configured secret key and algorithm. -/
def create_access_token (cfg : AuthConfig) (now : Nat) (data : Claims) :
    JWToken :=
  jwtEncode
    (dictInsert data "exp" (.n (now + cfg.access_token_expire_minutes * 60)))
    cfg.secret_key cfg.algorithm

/-- `AuthManager.verify_token`: decode with the configured key and
algorithm; any `JWTError` becomes a 401. -/
def verify_token (cfg : AuthConfig) (now : Nat) (tok : JWToken) :
    Except AuthError Claims :=
  match jwtDecode tok cfg.secret_key [cfg.algorithm] now with
  | .ok payload => .ok payload
  | .error _ => .error (.unauthorized "Could not validate credentials")

/-- Modelled from the spec: `AuthManager._create_localhost_api_key` is
referenced by `api/routes.py` but its definition is not among the files
under study; per §4.1 it must "synthesize a key granting access to all
services without touching persistent storage". The ambient list of
service names is a parameter; the token name follows the repository's
localhost test script. -/
def create_localhost_api_key (services : List String) (now : Nat) : APIKey :=
  { key := "openmcp-localhost-auth", name := "localhost-bypass",
    created_at := now, expires_at := none, is_active := true,
    permissions := services.map (fun s => (s, true)) }

/-- `authorization.split()` then `scheme, token = ...` with a `bearer`
scheme check: Python `str.split()` splits on whitespace runs; anything
but exactly two fields, or a non-bearer scheme, is a `ValueError`. -/
def parseBearer (authorization : String) : Option String :=
  match (authorization.split Char.isWhitespace).filter (fun p => p ≠ "") with
  | [scheme, token] => if scheme.toLower = "bearer" then some token else none
  | _ => none

/-- `get_current_api_key` from `api/routes.py`: with no Authorization
header, a present client IP recognized as localhost under an enabled
bypass yields the synthetic key (the store is never consulted), anything
else a 401; with a header, the bearer token is extracted and validated
against the store. The recognition policy `AuthManager._is_localhost`
is not among the files under study and is abstracted as the Boolean
parameter `is_localhost` (modelled from the spec: a policy on the
transport-level peer address). -/
def get_current_api_key (cfg : AuthConfig) (is_localhost : String → Bool)
    (services : List String) (store : KeyStore) (now : Nat)
    (client_ip : Option String) (authorization : Option String) :
    Except AuthError APIKey :=
  match authorization with
  | none =>
    match client_ip with
    | some ip =>
      if cfg.allow_localhost ∧ is_localhost ip then
        .ok (create_localhost_api_key services now)
      else
        .error (.unauthorized "Authorization header required")
    | none => .error (.unauthorized "Authorization header required")
  | some header =>
    match parseBearer header with
    | none => .error (.unauthorized "Invalid authorization header format")
    | some token => validate_api_key store now token

/-- A `BrowserSession` from `services/browseruse_service.py`: the
selenium driver handle is external, so only its presence is recorded
(`driver is None` versus a live handle). -/
structure BrowserSession where
  session_id : String
  headless : Bool
  timeout : Nat
  hasDriver : Bool
  is_active : Bool
deriving DecidableEq, Repr

/-- The mutable state of a `BrowseruseService` instance. -/
structure BrowseruseService where
  sessions : List (String × BrowserSession)
  max_sessions : Nat
  default_headless : Bool
  default_timeout : Nat
  is_running : Bool
deriving DecidableEq, Repr

/-- `BrowseruseService.__init__` over the optional config entries
(`max_sessions` default 5, `headless` default True, `timeout` default
30); the registry starts empty. -/
def mkBrowseruseService (max_sessions : Option Nat) (headless : Option Bool)
    (timeout : Option Nat) : BrowseruseService :=
  { sessions := [], max_sessions := max_sessions.getD 5,
    default_headless := headless.getD true,
    default_timeout := timeout.getD 30, is_running := false }

/-- Result values inside the `Dict[str, Any]` a tool call returns. -/
inductive RVal where
  | s (v : String)
  | n (v : Nat)
  | b (v : Bool)
  | null
deriving DecidableEq, Repr

/-- A tool-call result mapping. -/
abbrev RDict := List (String × RVal)

/-- Failure is signalled by presence of the `"error"` key. -/
def hasError (d : RDict) : Bool := (dictGet "error" d).isSome

/-- The typed fields of the `arguments` mapping that
`BrowseruseService.call_tool` actually reads; an absent field is an
absent dict key. -/
structure ToolArgs where
  headless : Option Bool := none
  timeout : Option Nat := none
  url : Option String := none
  selector : Option String := none
  text : Option String := none
deriving DecidableEq, Repr

/-- Outcomes of the external selenium collaborator during one
`call_tool` invocation: the uuid the generator would produce, whether
`BrowserSession.start` (driver launch) succeeds and with what message it
would fail, likewise for `driver.quit()` inside `BrowserSession.stop`,
and the result of the one in-session selenium operation the call would
perform (already shaped as the dict the tool branch returns). -/
structure CallOracle where
  newId : String
  startOk : Bool
  startErr : String
  stopOk : Bool
  stopErr : String
  opResult : Except String RDict
deriving Repr

/-- `BrowseruseService._create_session`: reject at capacity
(`len(sessions) >= max_sessions`), otherwise build the session, start
its driver (`.error` when the external launch raises, propagated to the
caller) and only then register it. -/
def create_session (svc : BrowseruseService) (o : CallOracle)
    (args : ToolArgs) : Except String (RDict × BrowseruseService) :=
  if svc.max_sessions ≤ svc.sessions.length then
    .ok ([("error",
           .s ("Maximum sessions (" ++ toString svc.max_sessions
               ++ ") reached"))], svc)
  else
    let headless := args.headless.getD svc.default_headless
    let timeout := args.timeout.getD svc.default_timeout
    if o.startOk then
      let session : BrowserSession :=
        { session_id := o.newId, headless := headless, timeout := timeout,
          hasDriver := true, is_active := true }
      .ok ([("session_id", .s o.newId), ("status", .s "created"),
            ("headless", .b headless), ("timeout", .n timeout)],
           { svc with sessions := dictInsert svc.sessions o.newId session })
    else
      .error o.startErr

/-- `BrowseruseService._close_session`: an unknown id is reported as a
result value; otherwise the session is stopped (`driver.quit()` may
raise, in which case the registry entry survives and the exception
propagates) and then deleted from the registry. -/
def close_session (svc : BrowseruseService) (sid : String)
    (o : CallOracle) : Except String (RDict × BrowseruseService) :=
  match dictGet sid svc.sessions with
  | none => .ok ([("error", .s "Session not found")], svc)
  | some _ =>
    if o.stopOk then
      .ok ([("session_id", .s sid), ("status", .s "closed")],
           { svc with sessions := dictRemove sid svc.sessions })
    else
      .error o.stopErr

/-- The six session-bound tool branches of `call_tool`: a missing
required argument is a `KeyError` (an exception), then the selenium
operation runs with the oracle's outcome; `some` when `tool_name` is one
of these six, `none` otherwise. -/
def session_op (tool_name : String) (args : ToolArgs) (o : CallOracle) :
    Option (Except String RDict) :=
  if tool_name = "navigate" then
    some (match args.url with
          | none => .error "KeyError: url"
          | some _ => o.opResult)
  else if tool_name = "get_page_info" then
    some o.opResult
  else if tool_name = "find_elements" then
    some (match args.selector with
          | none => .error "KeyError: selector"
          | some _ => o.opResult)
  else if tool_name = "click_element" then
    some (match args.selector with
          | none => .error "KeyError: selector"
          | some _ => o.opResult)
  else if tool_name = "type_text" then
    some (match args.selector, args.text with
          | some _, some _ => o.opResult
          | _, _ => .error "KeyError: selector or text")
  else if tool_name = "take_screenshot" then
    some o.opResult
  else
    none

/-- The structured result returned when a non-create tool call carries
no resolvable session id; Python echoes the offending `session_id`
value (possibly `None`) alongside the error. -/
def noActiveSession (sid : RVal) : RDict :=
  [("error", .s "No active session. Create a session first."),
   ("session_id", sid)]

/-- `BrowseruseService.call_tool`: `create_session` is dispatched first;
every other tool requires a truthy `session_id` registered in the
session map (Python `if not session_id or session_id not in
self.sessions`, so the empty string is also rejected); unknown names
yield an `Unknown tool` result. The whole body sits in
`try ... except Exception`, so a propagating exception becomes
`{"error": str(e)}` and the state is left as the failing step left it. -/
def call_tool (svc : BrowseruseService) (tool_name : String)
    (args : ToolArgs) (session_id : Option String) (o : CallOracle) :
    RDict × BrowseruseService :=
  let body : Except String (RDict × BrowseruseService) :=
    if tool_name = "create_session" then
      create_session svc o args
    else
      match session_id with
      | none => .ok (noActiveSession .null, svc)
      | some sid =>
        if sid = "" ∨ (dictGet sid svc.sessions).isNone then
          .ok (noActiveSession (.s sid), svc)
        else
          match session_op tool_name args o with
          | some r =>
            match r with
            | .ok d => .ok (d, svc)
            | .error e => .error e
          | none =>
            if tool_name = "close_session" then
              close_session svc sid o
            else
              .ok ([("error", .s ("Unknown tool: " ++ tool_name))], svc)
  match body with
  | .ok r => r
  | .error e => ([("error", .s e)], svc)

/-- `BrowserSession.stop` applied to a registered session object:
`driver = None`, `is_active = False`. -/
def markStopped (s : BrowserSession) : BrowserSession :=
  { s with hasDriver := false, is_active := false }

/-- The `for session in list(self.sessions.values()): await
session.stop()` loop of `BrowseruseService.stop`, walking a snapshot of
the registry: each successful stop mutates that session object in
place; the first failing `driver.quit()` (oracle `stopOk` false for its
id) aborts the loop and the exception escapes `stop`, which has no
handler, leaving the registry uncleared and `is_running` untouched.
After an all-successful sweep the registry is cleared and the service
marked stopped. -/
def stopLoop (pending : List (String × BrowserSession))
    (stopOk : String → Bool) (stopErr : String → String)
    (svc : BrowseruseService) : Except String Unit × BrowseruseService :=
  match pending with
  | [] => (.ok (), { svc with sessions := [], is_running := false })
  | (sid, _) :: rest =>
    if stopOk sid then
      stopLoop rest stopOk stopErr
        { svc with sessions := dictUpdate sid markStopped svc.sessions }
    else
      (.error (stopErr sid), svc)

/-- `BrowseruseService.stop`. -/
def service_stop (svc : BrowseruseService) (stopOk : String → Bool)
    (stopErr : String → String) : Except String Unit × BrowseruseService :=
  stopLoop svc.sessions stopOk stopErr svc

/-- One step of the session workload considered by the capacity
invariant: a `create_session` or `close_session` tool call together
with the external outcomes of that call. -/
inductive SessionOp where
  | create (args : ToolArgs) (o : CallOracle)
  | close (sid : String) (o : CallOracle)

/-- Apply one workload step through `call_tool`, keeping the state. -/
def applyOp (svc : BrowseruseService) (op : SessionOp) : BrowseruseService :=
  match op with
  | .create args o => (call_tool svc "create_session" args none o).2
  | .close sid o => (call_tool svc "close_session" {} (some sid) o).2

/-- Run a workload left to right. -/
def runOps (svc : BrowseruseService) (ops : List SessionOp) :
    BrowseruseService :=
  ops.foldl applyOp svc

/-- A raised 401, viewed as a Boolean on the result channel. -/
def isUnauthorized {α : Type} : Except AuthError α → Bool
  | .error _ => true
  | .ok _ => false

/-- A concrete key used to instantiate the auth theorems. -/
def keyA : APIKey :=
  { key := "bmcp_tokA", name := "alice", created_at := 0,
    expires_at := some 100, is_active := true,
    permissions := [("browseruse", true)] }

/-- A one-entry key store holding `keyA`. -/
def storeA : KeyStore := [("bmcp_tokA", keyA)]

/-- A concrete auth configuration for instantiating the JWT theorems. -/
def cfgA : AuthConfig :=
  { secret_key := "test-secret-key", algorithm := "HS256",
    access_token_expire_minutes := 30, allow_localhost := false }

/-- A concrete started session used to instantiate the service
theorems. -/
def sessA : BrowserSession :=
  { session_id := "sid-a", headless := true, timeout := 30,
    hasDriver := true, is_active := true }

/-- A second concrete started session. -/
def sessB : BrowserSession :=
  { session_id := "sid-b", headless := false, timeout := 10,
    hasDriver := true, is_active := true }

/-- A running service holding the two concrete sessions. -/
def svcAB : BrowseruseService :=
  { sessions := [("sid-a", sessA), ("sid-b", sessB)], max_sessions := 5,
    default_headless := true, default_timeout := 30, is_running := true }

/-- An oracle under which every external browser call succeeds. -/
def oracleOk : CallOracle :=
  { newId := "sid-new", startOk := true, startErr := "start failed",
    stopOk := true, stopErr := "quit failed",
    opResult := .ok [("status", .s "success")] }

/-! Helper lemmas about the dictionary model. -/

theorem dictGet_append_right {β : Type} (d : List (String × β))
    (k : String) (v : β) (h : dictGet k d = none) :
    dictGet k (d ++ [(k, v)]) = some v := by
  induction d with
  | nil => simp [dictGet]
  | cons kv rest ih =>
    obtain ⟨k', v'⟩ := kv
    by_cases hk : k' = k
    · simp [dictGet, hk] at h
    · rw [dictGet, if_neg hk] at h
      simpa [dictGet, hk] using ih h

theorem dictGet_dictUpdate_self {β : Type} (g : β → β)
    (d : List (String × β)) (a : String) :
    dictGet a (dictUpdate a g d) = (dictGet a d).map g := by
  induction d with
  | nil => simp [dictGet, dictUpdate]
  | cons kv rest ih =>
    obtain ⟨k', v'⟩ := kv
    by_cases hk : k' = a
    · simp [dictGet, dictUpdate, hk]
    · simp [dictGet, dictUpdate, hk, ih]

theorem dictGet_dictUpdate_ne {β : Type} (g : β → β)
    (d : List (String × β)) (a t : String) (h : t ≠ a) :
    dictGet t (dictUpdate a g d) = dictGet t d := by
  induction d with
  | nil => simp [dictUpdate]
  | cons kv rest ih =>
    obtain ⟨k', v'⟩ := kv
    by_cases hk : k' = a
    · simp [dictGet, dictUpdate, hk, Ne.symm h, ih]
    · simp [dictGet, dictUpdate, hk, ih]

theorem length_dictUpdate {β : Type} (g : β → β)
    (d : List (String × β)) (a : String) :
    (dictUpdate a g d).length = d.length := by
  induction d with
  | nil => simp [dictUpdate]
  | cons kv rest ih =>
    obtain ⟨k', v'⟩ := kv
    by_cases hk : k' = a
    · simp [dictUpdate, hk, ih]
    · simp [dictUpdate, hk, ih]

theorem dictUpdate_dictUpdate {β : Type} (g : β → β)
    (hg : ∀ x, g (g x) = g x) (d : List (String × β)) (a : String) :
    dictUpdate a g (dictUpdate a g d) = dictUpdate a g d := by
  induction d with
  | nil => simp [dictUpdate]
  | cons kv rest ih =>
    obtain ⟨k', v'⟩ := kv
    by_cases hk : k' = a
    · simp [dictUpdate, hk, hg, ih]
    · simp [dictUpdate, hk, ih]

theorem dictGet_dictInsert_self {β : Type} (d : List (String × β))
    (k : String) (v : β) :
    dictGet k (dictInsert d k v) = some v := by
  unfold dictInsert
  by_cases h : (dictGet k d).isSome
  · rw [if_pos h, dictGet_dictUpdate_self]
    cases hd : dictGet k d with
    | none => rw [hd] at h; simp at h
    | some w => simp
  · rw [if_neg h]
    exact dictGet_append_right d k v (by
      cases hd : dictGet k d with
      | none => rfl
      | some w => simp [hd] at h)

theorem mem_dictUpdate_of_ne {β : Type} (g : β → β)
    (d : List (String × β)) (a : String) (kv : String × β)
    (hm : kv ∈ d) (hk : kv.1 ≠ a) : kv ∈ dictUpdate a g d := by
  induction d with
  | nil => simp at hm
  | cons hd rest ih =>
    obtain ⟨k', v'⟩ := hd
    rcases List.mem_cons.mp hm with hEq | hmem
    · subst hEq
      simp [dictUpdate, hk]
    · by_cases hk' : k' = a
      · simp [dictUpdate, hk', ih hmem]
      · simp [dictUpdate, hk', ih hmem]

theorem mem_dictInsert_of_ne {β : Type} (d : List (String × β))
    (k : String) (v : β) (kv : String × β) (hm : kv ∈ d) (hk : kv.1 ≠ k) :
    kv ∈ dictInsert d k v := by
  unfold dictInsert
  by_cases h : (dictGet k d).isSome
  · rw [if_pos h]
    exact mem_dictUpdate_of_ne _ d k kv hm hk
  · rw [if_neg h]
    exact List.mem_append_left _ hm

theorem length_dictInsert {β : Type} (d : List (String × β))
    (k : String) (v : β) :
    (dictInsert d k v).length
      = if (dictGet k d).isSome then d.length else d.length + 1 := by
  unfold dictInsert
  by_cases h : (dictGet k d).isSome
  · simp [h, length_dictUpdate]
  · simp [h]

theorem dictGet_dictRemove_self {β : Type} (d : List (String × β))
    (k : String) :
    dictGet k (dictRemove k d) = none := by
  induction d with
  | nil => simp [dictGet, dictRemove]
  | cons kv rest ih =>
    obtain ⟨k', v'⟩ := kv
    by_cases hk : k' = k
    · simp [dictRemove, hk, ih]
    · simp [dictRemove, dictGet, hk, ih]

theorem dictGet_dictRemove_ne {β : Type} (d : List (String × β))
    (k t : String) (h : t ≠ k) :
    dictGet t (dictRemove k d) = dictGet t d := by
  induction d with
  | nil => simp [dictRemove]
  | cons kv rest ih =>
    obtain ⟨k', v'⟩ := kv
    by_cases hk : k' = k
    · simp [dictRemove, dictGet, hk, Ne.symm h, ih]
    · simp [dictRemove, dictGet, hk, ih]

theorem length_dictRemove_le {β : Type} (d : List (String × β))
    (k : String) :
    (dictRemove k d).length ≤ d.length := by
  induction d with
  | nil => simp [dictRemove]
  | cons kv rest ih =>
    obtain ⟨k', v'⟩ := kv
    by_cases hk : k' = k
    · simp only [dictRemove, hk, if_true]
      exact Nat.le_succ_of_le ih
    · simp only [dictRemove, hk, if_false, List.length_cons]
      exact Nat.succ_le_succ ih

/-- C1: `validate_api_key(token)` fails with Unauthorized iff the token
is not in the key store, or the stored key is inactive, or it carries an
expiry that the current time has passed; otherwise it returns the stored
`APIKey` object unchanged. -/
theorem validate_api_key_spec (store : KeyStore) (now : Nat)
    (token : String) :
    (isUnauthorized (validate_api_key store now token) = true ↔
       dictGet token store = none ∨
       ∃ k, dictGet token store = some k ∧
         (k.is_active = false ∨ ∃ e, k.expires_at = some e ∧ now > e)) ∧
    (∀ k, dictGet token store = some k → k.is_active = true →
       (∀ e, k.expires_at = some e → now ≤ e) →
       validate_api_key store now token = .ok k) := by
  constructor
  · unfold validate_api_key
    cases hd : dictGet token store with
    | none => simp [isUnauthorized]
    | some kobj =>
      dsimp only
      by_cases ha : kobj.is_active = false
      · simp [isUnauthorized, ha]
      · rw [if_neg ha]
        cases he : kobj.expires_at with
        | none =>
          simp only [isUnauthorized]
          constructor
          · intro h; cases h
          · rintro (h | ⟨k, hk, hrest⟩)
            · cases h
            · cases hk
              rcases hrest with hact | ⟨e, hee, _⟩
              · exact absurd hact ha
              · rw [he] at hee; cases hee
        | some e =>
          by_cases hlt : now > e
          · simp only [if_pos hlt, isUnauthorized]
            constructor
            · intro _
              exact Or.inr ⟨kobj, rfl, Or.inr ⟨e, he, hlt⟩⟩
            · intro _; trivial
          · simp only [if_neg hlt, isUnauthorized]
            constructor
            · intro h; cases h
            · rintro (h | ⟨k, hk, hrest⟩)
              · cases h
              · cases hk
                rcases hrest with hact | ⟨e', hee, hlt'⟩
                · exact absurd hact ha
                · rw [he] at hee
                  cases hee
                  exact absurd hlt' hlt
  · intro k hd ha hexp
    unfold validate_api_key
    rw [hd]
    dsimp only
    rw [if_neg (by rw [ha]; simp)]
    cases he : k.expires_at with
    | none => rfl
    | some e =>
      dsimp only
      rw [if_neg (by simpa using hexp e he)]

/-- Witness for C1 at a concrete store: a valid lookup succeeds, an
expired one is rejected. -/
theorem validate_api_key_spec_witness :
    validate_api_key storeA 50 "bmcp_tokA" = .ok keyA ∧
    isUnauthorized (validate_api_key storeA 200 "bmcp_tokA") = true :=
  ⟨(validate_api_key_spec storeA 50 "bmcp_tokA").2 keyA rfl rfl
     (by intro e he; cases he; decide),
   (validate_api_key_spec storeA 200 "bmcp_tokA").1.mpr
     (Or.inr ⟨keyA, rfl, Or.inr ⟨100, rfl, by decide⟩⟩)⟩

/-- C3: `check_permission` propagates any `validate_api_key` failure
unchanged; on a valid token it returns exactly the permission-map entry
for the service, defaulting to `false`; a key created with permissions
`{"browseruse": True}` yields `true` for `browseruse` and `false` for
every other service name. -/
theorem check_permission_spec (store : KeyStore) (now : Nat)
    (token service : String) :
    (∀ err, validate_api_key store now token = .error err →
       check_permission store now token service = .error err) ∧
    (∀ k, validate_api_key store now token = .ok k →
       check_permission store now token service =
         .ok ((dictGet service k.permissions).getD false)) ∧
    (∀ tok name,
       check_permission
         (create_api_key store now tok name none
            (some [("browseruse", true)])).2 now tok "browseruse"
         = .ok true ∧
       ∀ s, s ≠ "browseruse" →
         check_permission
           (create_api_key store now tok name none
              (some [("browseruse", true)])).2 now tok s
           = .ok false) := by
  refine ⟨?_, ?_, ?_⟩
  · intro err h
    simp [check_permission, h]
  · intro k h
    simp [check_permission, h]
  · intro tok name
    have hstore :
        (create_api_key store now tok name none
           (some [("browseruse", true)])).2
          = dictInsert store tok
              { key := tok, name := name, created_at := now,
                expires_at := none, is_active := true,
                permissions := [("browseruse", true)] } := by
      simp [create_api_key]
    have hval : ∀ s,
        check_permission
          (create_api_key store now tok name none
             (some [("browseruse", true)])).2 now tok s
          = .ok ((dictGet s [("browseruse", true)]).getD false) := by
      intro s
      rw [hstore]
      rw [check_permission, validate_api_key, dictGet_dictInsert_self]
      rfl
    constructor
    · rw [hval "browseruse"]
      rfl
    · intro s hs
      rw [hval s]
      simp [dictGet, Ne.symm hs]

/-- Witness for C3 at a concrete store: the created key authorizes
`browseruse` and not `web_search`; an unknown token's failure is
propagated. -/
theorem check_permission_spec_witness :
    check_permission
      (create_api_key storeA 0 "bmcp_tokB" "bob" none
         (some [("browseruse", true)])).2 0 "bmcp_tokB" "browseruse"
      = .ok true ∧
    check_permission
      (create_api_key storeA 0 "bmcp_tokB" "bob" none
         (some [("browseruse", true)])).2 0 "bmcp_tokB" "web_search"
      = .ok false ∧
    check_permission storeA 0 "bmcp_zzz" "browseruse"
      = .error (.unauthorized "Invalid API key") :=
  ⟨((check_permission_spec storeA 0 "bmcp_tokB" "browseruse").2.2
      "bmcp_tokB" "bob").1,
   ((check_permission_spec storeA 0 "bmcp_tokB" "web_search").2.2
      "bmcp_tokB" "bob").2 "web_search" (by decide),
   (check_permission_spec storeA 0 "bmcp_zzz" "browseruse").1
     (.unauthorized "Invalid API key") rfl⟩

/-- C4: revoking an unknown token returns `false` and leaves the store
unchanged; revoking a stored token returns `true`, flips only that key's
`is_active` flag, removes nothing, touches no other entry, and a repeat
revoke again returns `true` without further change. -/
theorem revoke_api_key_spec (store : KeyStore) (token : String) :
    (dictGet token store = none →
       revoke_api_key store token = (false, store)) ∧
    (∀ k, dictGet token store = some k →
       (revoke_api_key store token).1 = true ∧
       dictGet token (revoke_api_key store token).2
         = some { k with is_active := false } ∧
       (∀ t, t ≠ token →
          dictGet t (revoke_api_key store token).2 = dictGet t store) ∧
       revoke_api_key (revoke_api_key store token).2 token
         = (true, (revoke_api_key store token).2)) := by
  constructor
  · intro h
    simp [revoke_api_key, h]
  · intro k hd
    have hs : (dictGet token store).isSome := by rw [hd]; rfl
    have h2 : (revoke_api_key store token).2
        = dictUpdate token (fun x => { x with is_active := false }) store := by
      simp [revoke_api_key, hs]
    refine ⟨by simp [revoke_api_key, hs], ?_, ?_, ?_⟩
    · rw [h2, dictGet_dictUpdate_self, hd]
      rfl
    · intro t ht
      rw [h2, dictGet_dictUpdate_ne _ _ _ _ ht]
    · have hs2 : (dictGet token (revoke_api_key store token).2).isSome := by
        rw [h2, dictGet_dictUpdate_self, hd]
        rfl
      have hidem :
          dictUpdate token (fun x => { x with is_active := false })
              (revoke_api_key store token).2
            = (revoke_api_key store token).2 := by
        rw [h2]
        exact dictUpdate_dictUpdate
          (fun x => { x with is_active := false }) (fun x => rfl) store token
      have hstep : ∀ (d : KeyStore), (dictGet token d).isSome →
          revoke_api_key d token
            = (true,
               dictUpdate token (fun x => { x with is_active := false }) d) := by
        intro d hdd
        simp [revoke_api_key, hdd]
      rw [hstep _ hs2, hidem]

/-- Witness for C4 at a concrete store: revoking the stored token twice
reports `true` both times and only deactivates it; an unknown token
reports `false`. -/
theorem revoke_api_key_spec_witness :
    (revoke_api_key storeA "bmcp_tokA").1 = true ∧
    dictGet "bmcp_tokA" (revoke_api_key storeA "bmcp_tokA").2
      = some { keyA with is_active := false } ∧
    revoke_api_key storeA "bmcp_zzz" = (false, storeA) :=
  ⟨((revoke_api_key_spec storeA "bmcp_tokA").2 keyA rfl).1,
   ((revoke_api_key_spec storeA "bmcp_tokA").2 keyA rfl).2.1,
   (revoke_api_key_spec storeA "bmcp_zzz").1 rfl⟩

/-- C9 counterexample: the claim quantifies over every data mapping, but
`create_access_token` overwrites an `exp` entry already present in the
data with the computed expiry, so for `data = {"exp": 0}` the verified
payload does not contain that entry of `data`. -/
theorem create_access_token_overwrites_exp :
    verify_token cfgA 100 (create_access_token cfgA 100 [("exp", JVal.n 0)])
      = .ok [("exp", JVal.n 1900)] ∧
    ¬ (("exp", JVal.n 0) ∈ ([("exp", JVal.n 1900)] : Claims)) :=
  ⟨rfl, by decide⟩

/-- C9 (amended): verifying a token minted by `create_access_token`
before its expiry succeeds and returns the data payload plus the `exp`
expiry claim, every entry of `data` other than a pre-existing `exp`
entry (which is overwritten) being preserved; and a malformed token, a
token signed under a different key, and an expired token each fail with
Unauthorized. -/
theorem verify_token_round_trip (cfg : AuthConfig) (now t : Nat)
    (data : Claims)
    (h : t ≤ now + cfg.access_token_expire_minutes * 60) :
    (verify_token cfg t (create_access_token cfg now data)
       = .ok (dictInsert data "exp"
           (.n (now + cfg.access_token_expire_minutes * 60)))) ∧
    (∀ kv, kv ∈ data → kv.1 ≠ "exp" →
       kv ∈ dictInsert data "exp"
         (.n (now + cfg.access_token_expire_minutes * 60))) ∧
    (dictGet "exp" (dictInsert data "exp"
         (.n (now + cfg.access_token_expire_minutes * 60)))
       = some (.n (now + cfg.access_token_expire_minutes * 60))) ∧
    (∀ raw, verify_token cfg t (.malformed raw)
       = .error (.unauthorized "Could not validate credentials")) ∧
    (∀ claims key alg, key ≠ cfg.secret_key →
       verify_token cfg t (.signed claims key alg)
         = .error (.unauthorized "Could not validate credentials")) ∧
    (∀ claims e, dictGet "exp" claims = some (.n e) → e < t →
       verify_token cfg t
           (.signed claims cfg.secret_key cfg.algorithm)
         = .error (.unauthorized "Could not validate credentials")) := by
  refine ⟨?_, ?_, ?_, ?_, ?_, ?_⟩
  · unfold verify_token create_access_token jwtEncode jwtDecode
    dsimp only
    rw [if_neg (fun hne => hne rfl)]
    rw [if_neg (by simp)]
    rw [dictGet_dictInsert_self]
    dsimp only
    rw [if_neg (by omega)]
  · intro kv hm hk
    exact mem_dictInsert_of_ne data "exp" _ kv hm hk
  · exact dictGet_dictInsert_self data "exp" _
  · intro raw
    rfl
  · intro claims key alg hne
    unfold verify_token jwtDecode
    dsimp only
    rw [if_pos hne]
  · intro claims e hexp hlt
    unfold verify_token jwtDecode
    dsimp only
    rw [if_neg (fun hne => hne rfl)]
    rw [if_neg (by simp)]
    rw [hexp]
    dsimp only
    rw [if_pos hlt]

/-- Witness for C9 at a concrete configuration: the `{"user": "x"}`
round trip yields the user claim plus the expiry claim, and a
wrong-key token is rejected. -/
theorem verify_token_round_trip_witness :
    verify_token cfgA 0 (create_access_token cfgA 0 [("user", JVal.s "x")])
      = .ok [("user", JVal.s "x"), ("exp", JVal.n 1800)] ∧
    verify_token cfgA 0
        (.signed [("user", JVal.s "x")] "other-key" "HS256")
      = .error (.unauthorized "Could not validate credentials") :=
  ⟨(verify_token_round_trip cfgA 0 0 [("user", JVal.s "x")] (by decide)).1,
   (verify_token_round_trip cfgA 0 0 [("user", JVal.s "x")]
      (by decide)).2.2.2.2.1 [("user", JVal.s "x")] "other-key" "HS256"
     (by decide)⟩

/-- Every service name in scope is granted by the synthetic key. -/
theorem dictGet_map_const_true (services : List String) (s : String)
    (h : s ∈ services) :
    dictGet s (services.map fun x => (x, true)) = some true := by
  induction services with
  | nil => simp at h
  | cons a rest ih =>
    rcases List.mem_cons.mp h with hEq | hmem
    · subst hEq
      simp [dictGet]
    · by_cases ha : a = s
      · simp [dictGet, ha]
      · simp [dictGet, ha, ih hmem]

/-- C8: with no Authorization header, a request whose transport peer
address is recognized as localhost under an enabled bypass resolves to
the synthetic full-permission key — uniformly in the key store, which
is never consulted — while a peer not recognized as localhost, a
disabled bypass, or an unknown peer address is rejected as
Unauthorized. -/
theorem get_current_api_key_localhost_bypass (cfg : AuthConfig)
    (is_localhost : String → Bool) (services : List String)
    (store : KeyStore) (now : Nat) (ip : String) :
    (cfg.allow_localhost = true → is_localhost ip = true →
       get_current_api_key cfg is_localhost services store now
           (some ip) none
         = .ok (create_localhost_api_key services now) ∧
       ∀ s, s ∈ services →
         dictGet s (create_localhost_api_key services now).permissions
           = some true) ∧
    (cfg.allow_localhost = false ∨ is_localhost ip = false →
       get_current_api_key cfg is_localhost services store now
           (some ip) none
         = .error (.unauthorized "Authorization header required")) ∧
    (get_current_api_key cfg is_localhost services store now none none
       = .error (.unauthorized "Authorization header required")) := by
  refine ⟨?_, ?_, rfl⟩
  · intro hallow hlocal
    constructor
    · unfold get_current_api_key
      dsimp only
      rw [if_pos ⟨hallow, hlocal⟩]
    · intro s hs
      exact dictGet_map_const_true services s hs
  · intro hfail
    unfold get_current_api_key
    dsimp only
    rw [if_neg (by
      rintro ⟨h1, h2⟩
      rcases hfail with hf | hf
      · rw [hf] at h1; cases h1
      · rw [hf] at h2; cases h2)]

/-- Witness for C8: with bypass enabled, a loopback peer with no header
gets the synthetic key granting `browseruse`; a public peer with no
header is rejected. -/
theorem get_current_api_key_localhost_bypass_witness :
    get_current_api_key
        { cfgA with allow_localhost := true }
        (fun ip => ip = "127.0.0.1") ["browseruse", "web_search"]
        storeA 0 (some "127.0.0.1") none
      = .ok (create_localhost_api_key ["browseruse", "web_search"] 0) ∧
    dictGet "browseruse"
        (create_localhost_api_key
          ["browseruse", "web_search"] 0).permissions = some true ∧
    get_current_api_key
        { cfgA with allow_localhost := true }
        (fun ip => ip = "127.0.0.1") ["browseruse", "web_search"]
        storeA 0 (some "8.8.8.8") none
      = .error (.unauthorized "Authorization header required") :=
  ⟨((get_current_api_key_localhost_bypass
       { cfgA with allow_localhost := true }
       (fun ip => ip = "127.0.0.1") ["browseruse", "web_search"]
       storeA 0 "127.0.0.1").1 rfl (by decide)).1,
   ((get_current_api_key_localhost_bypass
       { cfgA with allow_localhost := true }
       (fun ip => ip = "127.0.0.1") ["browseruse", "web_search"]
       storeA 0 "127.0.0.1").1 rfl (by decide)).2 "browseruse" (by decide),
   (get_current_api_key_localhost_bypass
       { cfgA with allow_localhost := true }
       (fun ip => ip = "127.0.0.1") ["browseruse", "web_search"]
       storeA 0 "8.8.8.8").2.1 (Or.inr (by decide))⟩

/-- C6: closing a live session succeeds (the session is stopped and its
registry entry removed, with a `closed` status result), after which the
id no longer resolves, and a second close of the same id returns the
structured `Session not found` result — no fault on either call. -/
theorem close_session_idempotent (svc : BrowseruseService) (sid : String)
    (s : BrowserSession) (o o' : CallOracle)
    (hd : dictGet sid svc.sessions = some s) (hstop : o.stopOk = true) :
    close_session svc sid o
      = .ok ([("session_id", .s sid), ("status", .s "closed")],
             { svc with sessions := dictRemove sid svc.sessions }) ∧
    dictGet sid (dictRemove sid svc.sessions) = none ∧
    close_session { svc with sessions := dictRemove sid svc.sessions }
        sid o'
      = .ok ([("error", .s "Session not found")],
             { svc with sessions := dictRemove sid svc.sessions }) := by
  refine ⟨?_, dictGet_dictRemove_self _ _, ?_⟩
  · unfold close_session
    rw [hd]
    dsimp only
    rw [if_pos hstop]
  · unfold close_session
    dsimp only
    rw [dictGet_dictRemove_self]

/-- Witness for C6: closing `sid-a` twice on the concrete service. -/
theorem close_session_idempotent_witness :
    close_session svcAB "sid-a" oracleOk
      = .ok ([("session_id", .s "sid-a"), ("status", .s "closed")],
             { svcAB with sessions := [("sid-b", sessB)] }) ∧
    close_session { svcAB with sessions := [("sid-b", sessB)] }
        "sid-a" oracleOk
      = .ok ([("error", .s "Session not found")],
             { svcAB with sessions := [("sid-b", sessB)] }) :=
  ⟨(close_session_idempotent svcAB "sid-a" sessA oracleOk oracleOk
      rfl rfl).1,
   (close_session_idempotent svcAB "sid-a" sessA oracleOk oracleOk
      rfl rfl).2.2⟩

/-- C10: if the registry is below capacity but the external browser
launch inside `BrowserSession.start` fails, `call_tool("create_session")`
returns the failure as an `error` mapping and the registry is exactly
as before the call: the partially-constructed session is never
registered, because registration happens only after `start()` returns. -/
theorem create_session_atomic (svc : BrowseruseService) (args : ToolArgs)
    (session_id : Option String) (o : CallOracle)
    (hcap : svc.sessions.length < svc.max_sessions)
    (hfail : o.startOk = false) :
    call_tool svc "create_session" args session_id o
      = ([("error", .s o.startErr)], svc) := by
  have hcreate : create_session svc o args = .error o.startErr := by
    unfold create_session
    rw [if_neg (Nat.not_le.mpr hcap)]
    dsimp only
    rw [if_neg (by simp [hfail])]
  unfold call_tool
  rw [if_pos rfl, hcreate]

/-- Witness for C10: a failing driver launch on the concrete service
leaves its two sessions untouched. -/
theorem create_session_atomic_witness :
    call_tool svcAB "create_session" {} none
        { oracleOk with startOk := false }
      = ([("error", .s "start failed")], svcAB) :=
  create_session_atomic svcAB {} none
    { oracleOk with startOk := false } (by decide) rfl

/-- C5: every non-`create_session` tool call whose session id is
missing, empty, or not registered returns the structured
`No active session` mapping (which carries the `error` key) and leaves
the state untouched; and each exception source inside `call_tool` —
the in-session selenium operation, the driver launch during create, and
`driver.quit()` during close — is caught and returned as a mapping with
an `error` key, never raised across the façade boundary. -/
theorem call_tool_structured_errors (svc : BrowseruseService)
    (args : ToolArgs) (o : CallOracle) :
    (∀ tool, tool ≠ "create_session" →
       call_tool svc tool args none o = (noActiveSession .null, svc) ∧
       hasError (noActiveSession .null) = true) ∧
    (∀ tool sid, tool ≠ "create_session" →
       dictGet sid svc.sessions = none →
       call_tool svc tool args (some sid) o
         = (noActiveSession (.s sid), svc) ∧
       hasError (noActiveSession (.s sid)) = true) ∧
    (∀ tool sid e, sid ≠ "" → (dictGet sid svc.sessions).isSome →
       session_op tool args o = some (.error e) →
       call_tool svc tool args (some sid) o = ([("error", .s e)], svc)) ∧
    (svc.sessions.length < svc.max_sessions → o.startOk = false →
       call_tool svc "create_session" args none o
         = ([("error", .s o.startErr)], svc)) ∧
    (∀ sid, sid ≠ "" → (dictGet sid svc.sessions).isSome →
       o.stopOk = false →
       call_tool svc "close_session" args (some sid) o
         = ([("error", .s o.stopErr)], svc)) := by
  refine ⟨?_, ?_, ?_, ?_, ?_⟩
  · intro tool ht
    refine ⟨?_, rfl⟩
    unfold call_tool
    rw [if_neg ht]
  · intro tool sid ht hd
    refine ⟨?_, rfl⟩
    unfold call_tool
    rw [if_neg ht]
    dsimp only
    rw [if_pos (Or.inr (by rw [hd]; rfl))]
  · intro tool sid e hsid hlive hop
    have hguard : ¬ (sid = "" ∨ (dictGet sid svc.sessions).isNone) := by
      rintro (h1 | h2)
      · exact hsid h1
      · rw [Option.isNone_iff_eq_none] at h2
        rw [h2] at hlive
        cases hlive
    have ht : tool ≠ "create_session" := by
      intro h
      rw [h] at hop
      simp [session_op] at hop
    unfold call_tool
    rw [if_neg ht]
    dsimp only
    rw [if_neg hguard, hop]
  · intro hcap hfail
    have hcreate : create_session svc o args = .error o.startErr := by
      unfold create_session
      rw [if_neg (Nat.not_le.mpr hcap)]
      dsimp only
      rw [if_neg (by simp [hfail])]
    unfold call_tool
    rw [if_pos rfl, hcreate]
  · intro sid hsid hlive hstop
    have hguard : ¬ (sid = "" ∨ (dictGet sid svc.sessions).isNone) := by
      rintro (h1 | h2)
      · exact hsid h1
      · rw [Option.isNone_iff_eq_none] at h2
        rw [h2] at hlive
        cases hlive
    obtain ⟨s, hs⟩ := Option.isSome_iff_exists.mp hlive
    have hclose : close_session svc sid o = .error o.stopErr := by
      unfold close_session
      rw [hs]
      dsimp only
      rw [if_neg (by simp [hstop])]
    unfold call_tool
    rw [if_neg (by decide)]
    dsimp only
    rw [if_neg hguard]
    rw [show session_op "close_session" args o = none from rfl]
    dsimp only
    rw [if_pos rfl, hclose]

/-- Witness for C5: on the concrete service, an unknown session id gets
the `No active session` result, a dead selenium call and a failing quit
are both returned as `error` mappings. -/
theorem call_tool_structured_errors_witness :
    call_tool svcAB "navigate" { url := some "http://x" } (some "ghost")
        oracleOk
      = (noActiveSession (.s "ghost"), svcAB) ∧
    call_tool svcAB "navigate" { url := some "http://x" } (some "sid-a")
        { oracleOk with opResult := .error "net::ERR" }
      = ([("error", .s "net::ERR")], svcAB) ∧
    call_tool svcAB "close_session" {} (some "sid-a")
        { oracleOk with stopOk := false }
      = ([("error", .s "quit failed")], svcAB) :=
  ⟨((call_tool_structured_errors svcAB { url := some "http://x" }
       oracleOk).2.1 "navigate" "ghost" (by decide) rfl).1,
   (call_tool_structured_errors svcAB { url := some "http://x" }
      { oracleOk with opResult := .error "net::ERR" }).2.2.1
     "navigate" "sid-a" "net::ERR" (by decide) rfl rfl,
   (call_tool_structured_errors svcAB {}
      { oracleOk with stopOk := false }).2.2.2.2
     "sid-a" (by decide) rfl rfl⟩

/-- Any single `call_tool` step keeps the session count within the
bound and never changes the configured maximum. -/
theorem call_tool_state_le (svc : BrowseruseService) (tool : String)
    (args : ToolArgs) (sid : Option String) (o : CallOracle)
    (h : svc.sessions.length ≤ svc.max_sessions) :
    (call_tool svc tool args sid o).2.sessions.length ≤ svc.max_sessions ∧
    (call_tool svc tool args sid o).2.max_sessions = svc.max_sessions := by
  unfold call_tool
  by_cases hc : tool = "create_session"
  · rw [if_pos hc]
    unfold create_session
    by_cases hcap : svc.max_sessions ≤ svc.sessions.length
    · rw [if_pos hcap]
      exact ⟨h, rfl⟩
    · rw [if_neg hcap]
      dsimp only
      by_cases hs : o.startOk = true
      · rw [if_pos hs]
        dsimp only
        constructor
        · rw [length_dictInsert]
          by_cases hp : (dictGet o.newId svc.sessions).isSome
          · rw [if_pos hp]
            exact h
          · rw [if_neg hp]
            omega
        · rfl
      · rw [if_neg hs]
        exact ⟨h, rfl⟩
  · rw [if_neg hc]
    cases sid with
    | none => exact ⟨h, rfl⟩
    | some s =>
      dsimp only
      by_cases hg : s = "" ∨ (dictGet s svc.sessions).isNone
      · rw [if_pos hg]
        exact ⟨h, rfl⟩
      · rw [if_neg hg]
        cases hop : session_op tool args o with
        | some r =>
          cases r with
          | ok d => exact ⟨h, rfl⟩
          | error e => exact ⟨h, rfl⟩
        | none =>
          by_cases hcl : tool = "close_session"
          · rw [if_pos hcl]
            unfold close_session
            cases hd : dictGet s svc.sessions with
            | none => exact ⟨h, rfl⟩
            | some ss =>
              dsimp only
              by_cases hstop : o.stopOk = true
              · rw [if_pos hstop]
                dsimp only
                exact ⟨Nat.le_trans (length_dictRemove_le _ _) h, rfl⟩
              · rw [if_neg hstop]
                exact ⟨h, rfl⟩
          · rw [if_neg hcl]
            exact ⟨h, rfl⟩

/-- Running any workload of create/close steps preserves the capacity
bound and the configured maximum. -/
theorem runOps_state (ops : List SessionOp) (svc : BrowseruseService)
    (h : svc.sessions.length ≤ svc.max_sessions) :
    (runOps svc ops).sessions.length ≤ svc.max_sessions ∧
    (runOps svc ops).max_sessions = svc.max_sessions := by
  induction ops generalizing svc with
  | nil => exact ⟨h, rfl⟩
  | cons op rest ih =>
    have hstep : (applyOp svc op).sessions.length ≤ svc.max_sessions ∧
        (applyOp svc op).max_sessions = svc.max_sessions := by
      cases op with
      | create args o => exact call_tool_state_le svc "create_session" args none o h
      | close sid o => exact call_tool_state_le svc "close_session" {} (some sid) o h
    have hrec := ih (applyOp svc op) (hstep.2 ▸ hstep.1)
    exact ⟨hstep.2 ▸ hrec.1, hstep.2 ▸ hrec.2⟩

/-- C2: a `create_session` issued below capacity with a working driver
launch succeeds and appends exactly one new session under the fresh id;
one issued at capacity returns the capacity error and leaves the
registry untouched; and over every workload of create/close tool calls
starting from a fresh service the registered-session count never
exceeds the configured maximum. -/
theorem session_capacity_spec :
    (∀ (svc : BrowseruseService) (args : ToolArgs) (o : CallOracle),
       o.startOk = true →
       svc.sessions.length < svc.max_sessions →
       dictGet o.newId svc.sessions = none →
       call_tool svc "create_session" args none o
         = ([("session_id", .s o.newId), ("status", .s "created"),
             ("headless", .b (args.headless.getD svc.default_headless)),
             ("timeout", .n (args.timeout.getD svc.default_timeout))],
            { svc with sessions := svc.sessions ++
                [(o.newId,
                  { session_id := o.newId,
                    headless := args.headless.getD svc.default_headless,
                    timeout := args.timeout.getD svc.default_timeout,
                    hasDriver := true, is_active := true })] })) ∧
    (∀ (svc : BrowseruseService) (args : ToolArgs) (sid : Option String)
       (o : CallOracle),
       svc.sessions.length = svc.max_sessions →
       call_tool svc "create_session" args sid o
         = ([("error",
              .s ("Maximum sessions (" ++ toString svc.max_sessions
                  ++ ") reached"))], svc)) ∧
    (∀ (maxS : Option Nat) (hdl : Option Bool) (tmo : Option Nat)
       (ops : List SessionOp),
       (runOps (mkBrowseruseService maxS hdl tmo) ops).sessions.length
         ≤ (mkBrowseruseService maxS hdl tmo).max_sessions) := by
  refine ⟨?_, ?_, ?_⟩
  · intro svc args o hstart hcap hfresh
    have hins : dictInsert svc.sessions o.newId
        { session_id := o.newId,
          headless := args.headless.getD svc.default_headless,
          timeout := args.timeout.getD svc.default_timeout,
          hasDriver := true, is_active := true }
        = svc.sessions ++
          [(o.newId,
            { session_id := o.newId,
              headless := args.headless.getD svc.default_headless,
              timeout := args.timeout.getD svc.default_timeout,
              hasDriver := true, is_active := true })] := by
      unfold dictInsert
      rw [if_neg (by rw [hfresh]; simp)]
    have hcreate : create_session svc o args
        = .ok ([("session_id", .s o.newId), ("status", .s "created"),
                ("headless", .b (args.headless.getD svc.default_headless)),
                ("timeout", .n (args.timeout.getD svc.default_timeout))],
               { svc with sessions := svc.sessions ++
                   [(o.newId,
                     { session_id := o.newId,
                       headless := args.headless.getD svc.default_headless,
                       timeout := args.timeout.getD svc.default_timeout,
                       hasDriver := true, is_active := true })] }) := by
      unfold create_session
      rw [if_neg (Nat.not_le.mpr hcap)]
      dsimp only
      rw [if_pos hstart, hins]
    unfold call_tool
    rw [if_pos rfl, hcreate]
  · intro svc args sid o hfull
    have hcreate : create_session svc o args
        = .ok ([("error",
                 .s ("Maximum sessions (" ++ toString svc.max_sessions
                     ++ ") reached"))], svc) := by
      unfold create_session
      rw [if_pos (Nat.le_of_eq hfull.symm)]
    unfold call_tool
    rw [if_pos rfl, hcreate]
  · intro maxS hdl tmo ops
    exact (runOps_state ops (mkBrowseruseService maxS hdl tmo)
      (by simp [mkBrowseruseService])).1

/-- Witness for C2: on a fresh two-session service one create succeeds
and registers the new id; on the full concrete service the same call
reports the capacity error and changes nothing. -/
theorem session_capacity_spec_witness :
    call_tool (mkBrowseruseService (some 2) none none) "create_session"
        {} none oracleOk
      = ([("session_id", .s "sid-new"), ("status", .s "created"),
          ("headless", .b true), ("timeout", .n 30)],
         { mkBrowseruseService (some 2) none none with
             sessions := [("sid-new",
               { session_id := "sid-new", headless := true, timeout := 30,
                 hasDriver := true, is_active := true })] }) ∧
    call_tool { svcAB with max_sessions := 2 } "create_session" {}
        none oracleOk
      = ([("error", .s "Maximum sessions (2) reached")],
         { svcAB with max_sessions := 2 }) :=
  ⟨session_capacity_spec.1 (mkBrowseruseService (some 2) none none)
     {} oracleOk rfl (by decide) rfl,
   session_capacity_spec.2.1 { svcAB with max_sessions := 2 } {} none
     oracleOk rfl⟩

/-- When every stop in the snapshot succeeds, the loop clears the
registry and marks the service stopped. -/
theorem stopLoop_all_ok (stopOk : String → Bool)
    (stopErr : String → String) (pending : List (String × BrowserSession)) :
    ∀ acc : BrowseruseService,
      (∀ kv, kv ∈ pending → stopOk kv.1 = true) →
      stopLoop pending stopOk stopErr acc
        = (.ok (), { acc with sessions := [], is_running := false }) := by
  induction pending with
  | nil => intro acc _; rfl
  | cons kv rest ih =>
    intro acc hall
    obtain ⟨k, v⟩ := kv
    unfold stopLoop
    rw [if_pos (hall (k, v) (List.mem_cons_self _ _))]
    rw [ih _ (fun kv hm => hall kv (List.mem_cons_of_mem _ hm))]

/-- The first failing stop in the snapshot aborts the loop with the
exception: the accumulated state keeps its `is_running` flag and its
full complement of registered sessions. -/
theorem stopLoop_first_failure (stopOk : String → Bool)
    (stopErr : String → String) (sid : String) (s : BrowserSession)
    (post : List (String × BrowserSession)) :
    ∀ (pre : List (String × BrowserSession)) (acc : BrowseruseService),
      (∀ kv, kv ∈ pre → stopOk kv.1 = true) → stopOk sid = false →
      (stopLoop (pre ++ (sid, s) :: post) stopOk stopErr acc).1
          = .error (stopErr sid) ∧
      (stopLoop (pre ++ (sid, s) :: post) stopOk stopErr acc).2.is_running
          = acc.is_running ∧
      (stopLoop (pre ++ (sid, s) :: post) stopOk
          stopErr acc).2.sessions.length
          = acc.sessions.length := by
  intro pre
  induction pre with
  | nil =>
    intro acc _ hfail
    unfold stopLoop
    rw [List.nil_append]
    dsimp only
    rw [if_neg (by simp [hfail])]
    exact ⟨rfl, rfl, rfl⟩
  | cons kv rest ih =>
    intro acc hall hfail
    obtain ⟨k, v⟩ := kv
    rw [List.cons_append]
    unfold stopLoop
    rw [if_pos (hall (k, v) (List.mem_cons_self _ _))]
    have hrec := ih
      { acc with sessions := dictUpdate k markStopped acc.sessions }
      (fun kv hm => hall kv (List.mem_cons_of_mem _ hm)) hfail
    refine ⟨hrec.1, hrec.2.1, ?_⟩
    rw [hrec.2.2]
    exact length_dictUpdate markStopped acc.sessions k

/-- C7 counterexample: on a service holding sessions `sid-a` and
`sid-b` where stopping `sid-a` fails, `stop()` propagates the fault:
the registry still holds both sessions (with `sid-b` never attempted
and left fully active) and `is_running` is still `true`, contradicting
the claim that after `stop()` the registry is empty and the service
stopped even if some shutdowns failed. -/
theorem service_stop_aborts_on_failure :
    (service_stop svcAB (fun sid => sid != "sid-a")
        (fun sid => "quit failed: " ++ sid)).1
      = .error "quit failed: sid-a" ∧
    (service_stop svcAB (fun sid => sid != "sid-a")
        (fun sid => "quit failed: " ++ sid)).2.sessions.length = 2 ∧
    (service_stop svcAB (fun sid => sid != "sid-a")
        (fun sid => "quit failed: " ++ sid)).2.is_running = true ∧
    dictGet "sid-b" (service_stop svcAB (fun sid => sid != "sid-a")
        (fun sid => "quit failed: " ++ sid)).2.sessions
      = some sessB :=
  ⟨rfl, rfl, rfl, rfl⟩

/-- C7 (amended): `stop()` iterates the registered sessions in order;
when every per-session shutdown succeeds it stops them all, empties the
registry and clears `is_running`; but a failing shutdown propagates as
an exception, so the remaining sessions are not attempted, the registry
keeps all of its entries, and `is_running` is unchanged. -/
theorem service_stop_spec (svc : BrowseruseService)
    (stopOk : String → Bool) (stopErr : String → String) :
    ((∀ kv, kv ∈ svc.sessions → stopOk kv.1 = true) →
       service_stop svc stopOk stopErr
         = (.ok (), { svc with sessions := [], is_running := false })) ∧
    (∀ pre sid s post, svc.sessions = pre ++ (sid, s) :: post →
       (∀ kv, kv ∈ pre → stopOk kv.1 = true) → stopOk sid = false →
       (service_stop svc stopOk stopErr).1 = .error (stopErr sid) ∧
       (service_stop svc stopOk stopErr).2.is_running = svc.is_running ∧
       (service_stop svc stopOk stopErr).2.sessions.length
         = svc.sessions.length) := by
  constructor
  · intro hall
    unfold service_stop
    exact stopLoop_all_ok stopOk stopErr svc.sessions svc hall
  · intro pre sid s post hsplit hpre hfail
    have hmain := stopLoop_first_failure stopOk stopErr sid s post pre svc
      hpre hfail
    unfold service_stop
    rw [hsplit]
    refine ⟨hmain.1, hmain.2.1, ?_⟩
    rw [hmain.2.2, hsplit]

/-- Witness for C7's amended theorem: an all-successful sweep over the
concrete service clears both sessions and stops it; a first-entry
failure keeps both sessions and the running flag. -/
theorem service_stop_spec_witness :
    service_stop svcAB (fun _ => true) (fun sid => sid)
      = (.ok (), { svcAB with sessions := [], is_running := false }) ∧
    (service_stop svcAB (fun sid => sid != "sid-a")
        (fun sid => sid)).2.sessions.length = svcAB.sessions.length :=
  ⟨(service_stop_spec svcAB (fun _ => true) (fun sid => sid)).1
     (fun _ _ => rfl),
   ((service_stop_spec svcAB (fun sid => sid != "sid-a")
       (fun sid => sid)).2 [] "sid-a" sessA [("sid-b", sessB)] rfl
     (fun kv hm => absurd hm (List.not_mem_nil kv)) rfl).2.2⟩

end OpenMCP
